import Mathlib

/-!
Formal model of the AGMS financial ledger and billing engine
(`apps/ledger/services.py`, `apps/ledger/billing_service.py`,
`apps/ledger/models.py`).

Modelling conventions:
* Python `Decimal` values are embedded as `Rat` (exact arithmetic, as
  `Decimal` is exact for the additions/multiplications used here);
  `Decimal.quantize(Decimal('0.01'))` with the default `ROUND_HALF_EVEN`
  context is `quantize2`.
* Opaque UUIDs are embedded as `Nat` identifiers.
* Calendar dates are embedded as `Int` day numbers; `(a - b).days` on
  Python dates becomes integer subtraction.
* The Django ORM store is an explicit `LedgerDB` record; `objects.filter`
  becomes `List.filter`, `objects.create` appends a row with a fresh id,
  `save()` replaces the row with the same id.
* A queryset's default `Meta` ordering is not modelled: filtered rows
  keep store order.  No modelled claim depends on it — the only ordered
  read, `get_current_dues_for_unit`, calls `order_by` explicitly
  (`firstByYearMonth`), and `generate_statement_for_unit`'s existence
  check filters on the full unique key (`unique_together` of
  `DuesStatement`), so `first()` is `find?`.
* A Python exception (`ValueError`, `AttributeError`,
  `MultipleObjectsReturned`) is an `Except.error`.  In every embedded
  function each `Except.error` arises either before the first write or
  inside a `django.db.transaction.atomic()` block (whose semantics roll
  back all writes of the block), so an erroring call leaves the caller's
  `LedgerDB` unchanged; this is why the erroneous results carry no state.
-/

set_option maxRecDepth 8000

namespace AGMS

/-- Rounds a rational to an integer using banker's rounding (round half to
even), the default `ROUND_HALF_EVEN` rounding of Python `Decimal`. -/
def roundHalfEven (x : Rat) : Int :=
  let f : Int := x.floor
  let frac : Rat := x - (f : Rat)
  if frac < (1 : Rat) / 2 then f
  else if (1 : Rat) / 2 < frac then f + 1
  else if f % 2 = 0 then f else f + 1

/-- Embeds `Decimal.quantize(Decimal('0.01'))` under the default
`ROUND_HALF_EVEN` context: round to two decimal places. -/
def quantize2 (x : Rat) : Rat :=
  (roundHalfEven (x * 100) : Rat) / 100

/-- Formats a money value with two decimals, as Python `f"{x:.2f}"` does;
used only to build the human-readable error strings of the validator. -/
def formatMoney (x : Rat) : String :=
  let c : Int := roundHalfEven (x * 100)
  let sign := if c < 0 then "-" else ""
  let a := c.natAbs
  let frac := a % 100
  sign ++ toString (a / 100) ++ "." ++ (if frac < 10 then "0" else "") ++ toString frac

/-- models.py `TransactionType`. -/
inductive TransactionType where
  | INCOME
  | EXPENSE
deriving DecidableEq, Repr

/-- models.py `TransactionStatus`: the transaction approval workflow
states.  Note the enum has exactly these four members; in particular there
is no `APPROVED` member. -/
inductive TransactionStatus where
  | DRAFT
  | PENDING
  | POSTED
  | CANCELLED
deriving DecidableEq, Repr

/-- models.py `PaymentType` for income transactions. -/
inductive PaymentType where
  | EXACT
  | ADVANCE
deriving DecidableEq, Repr

/-- models.py `DiscountType`. -/
inductive DiscountType where
  | PERCENTAGE
  | FLAT
deriving DecidableEq, Repr

/-- models.py `AdjustmentType`. -/
inductive AdjustmentType where
  | DISCOUNT
  | PENALTY
deriving DecidableEq, Repr

/-- models.py `CreditTransactionType`. -/
inductive CreditTransactionType where
  | DEPOSIT
  | DUES_DEDUCTION
  | REFUND
  | ADJUSTMENT
deriving DecidableEq, Repr

/-- models.py `DuesStatementStatus`: the statuses of monthly dues
statements.  The enum has exactly these five members; in particular there
is no `PENDING` member (billing_service.py nevertheless refers to one). -/
inductive DuesStatementStatus where
  | UNPAID
  | PARTIAL
  | PAID
  | OVERDUE
  | WAIVED
deriving DecidableEq, Repr

/-- models.py `PenaltyPolicy.rate_type` choices. -/
inductive RateType where
  | FLAT
  | PERCENT
deriving DecidableEq, Repr

/-- A raised Python exception. -/
inductive PyError where
  | valueError (msg : String)
  | attributeError (msg : String)
  | multipleObjectsReturned (msg : String)
deriving DecidableEq, Repr

/-- models.py `DuesStatement` (the fields read or written by the modelled
services). -/
structure DuesStatement where
  id : Nat
  org_id : Nat
  unit_id : Nat
  statement_month : Nat
  statement_year : Nat
  base_amount : Rat
  penalty_amount : Rat
  discount_amount : Rat
  net_amount : Rat
  amount_paid : Rat
  status : DuesStatementStatus
  due_date : Int
  paid_date : Option Int
  payment_transaction_id : Option Nat
deriving DecidableEq, Repr

/-- models.py `DuesStatement.balance_due`: remaining balance to be paid. -/
def DuesStatement.balance_due (s : DuesStatement) : Rat :=
  s.net_amount - s.amount_paid

/-- models.py `PenaltyPolicy`. -/
structure PenaltyPolicy where
  org_id : Nat
  name : String
  rate_type : RateType
  rate_value : Rat
  grace_period_days : Nat
  is_active : Bool
deriving DecidableEq, Repr

/-- models.py `PenaltyPolicy.calculate_penalty`: simple interest
`I = P × R × T` for percentage policies, `rate_value × months` for flat
policies (no quantization in the model method itself). -/
def PenaltyPolicy.calculate_penalty (p : PenaltyPolicy) (principal : Rat) (months_overdue : Int) : Rat :=
  if p.rate_type = RateType.FLAT then
    p.rate_value * (months_overdue : Rat)
  else
    let rate := p.rate_value / 100
    principal * rate * (months_overdue : Rat)

/-- models.py `DiscountConfig`. -/
structure DiscountConfig where
  id : Nat
  org_id : Nat
  name : String
  discount_type : DiscountType
  value : Rat
  applicable_categories : List Nat
  min_months : Nat
  valid_from : Option Int
  valid_until : Option Int
  is_active : Bool
deriving DecidableEq, Repr

/-- models.py `BillingConfig`. -/
structure BillingConfig where
  org_id : Nat
  monthly_dues_amount : Rat
  billing_day : Nat
  grace_period_days : Nat
  is_active : Bool
deriving DecidableEq, Repr

/-- models.py `UnitCredit`: one credit account per unit. -/
structure UnitCredit where
  id : Nat
  org_id : Nat
  unit_id : Nat
  credit_balance : Rat
deriving DecidableEq, Repr

/-- models.py `CreditTransaction`: one append-only credit ledger entry. -/
structure CreditTransaction where
  id : Nat
  unit_credit_id : Nat
  transaction_id : Option Nat
  transaction_type : CreditTransactionType
  amount : Rat
  balance_after : Rat
  description : String
  created_by_id : Option Nat
deriving DecidableEq, Repr

/-- models.py `Transaction` (the fields read or written by the modelled
services). -/
structure Transaction where
  id : Nat
  org_id : Nat
  unit_id : Option Nat
  category_id : Option Nat
  transaction_type : TransactionType
  status : TransactionStatus
  payment_type : PaymentType
  gross_amount : Rat
  net_amount : Rat
  amount : Rat
  category : String
  description : String
  payer_name : Option String
  reference_number : Option String
  transaction_date : Int
  created_by_id : Option Nat
deriving DecidableEq, Repr

/-- models.py `TransactionAdjustment`: an applied discount or penalty row. -/
structure TransactionAdjustment where
  transaction_id : Nat
  adjustment_type : AdjustmentType
  amount : Rat
  reason : String
  penalty_months : Option Int
  created_by_id : Option Nat
deriving DecidableEq, Repr

/-- dtos.py `ValidationResultDTO`. -/
structure ValidationResultDTO where
  valid : Bool
  error : Option String
  credit_to_add : Option Rat
deriving DecidableEq, Repr

/-- dtos.py `PenaltyPreviewDTO`. -/
structure PenaltyPreviewDTO where
  name : String
  principal : Rat
  rate : Rat
  months_overdue : Int
  calculated_amount : Rat
deriving DecidableEq, Repr

/-- dtos.py `DiscountPreviewDTO`. -/
structure DiscountPreviewDTO where
  id : Nat
  name : String
  discount_type : DiscountType
  value : Rat
  calculated_amount : Rat
deriving DecidableEq, Repr

/-- dtos.py `AdjustmentPreviewDTO`. -/
structure AdjustmentPreviewDTO where
  adjustment_type : AdjustmentType
  amount : Rat
  reason : String
  months_overdue : Option Int
deriving DecidableEq, Repr

/-- dtos.py `TransactionBreakdownDTO`. -/
structure TransactionBreakdownDTO where
  gross_amount : Rat
  adjustments : List AdjustmentPreviewDTO
  pending_penalties : List PenaltyPreviewDTO
  applicable_discounts : List DiscountPreviewDTO
  net_amount : Rat
  credit_to_add : Option Rat
deriving DecidableEq, Repr

/-- dtos.py `TransactionDTO`. -/
structure TransactionDTO where
  id : Nat
  org_id : Nat
  transaction_type : TransactionType
  status : TransactionStatus
  amount : Rat
  net_amount : Rat
  category : String
  transaction_date : Int
deriving DecidableEq, Repr

/-- The Django ORM store seen by the ledger services, plus `timezone.now`:
every modelled table, the current date, and a fresh-id allocator for
`objects.create`. -/
structure LedgerDB where
  statements : List DuesStatement
  penalty_policies : List PenaltyPolicy
  discount_configs : List DiscountConfig
  billing_configs : List BillingConfig
  unit_credits : List UnitCredit
  credit_transactions : List CreditTransaction
  transactions : List Transaction
  adjustments : List TransactionAdjustment
  today : Int
  next_id : Nat
deriving DecidableEq, Repr

/-- Helper: the earliest element of a list of statements under the
`order_by('statement_year', 'statement_month')` ordering, keeping the
earlier list element on ties (Django sorting is stable); `none` on the
empty list.  This is `.order_by(...).first()`. -/
def firstByYearMonth : List DuesStatement → Option DuesStatement
  | [] => none
  | s :: rest =>
    match firstByYearMonth rest with
    | none => some s
    | some t =>
      if s.statement_year < t.statement_year ∨
         (s.statement_year = t.statement_year ∧ s.statement_month ≤ t.statement_month) then
        some s
      else
        some t

/-- Predicate for the open-statement filter of services.py
`get_current_dues_for_unit`: `status__in=[UNPAID, OVERDUE, PARTIAL]`. -/
def isOpenStatus (st : DuesStatementStatus) : Bool :=
  st = DuesStatementStatus.UNPAID ∨ st = DuesStatementStatus.OVERDUE ∨
    st = DuesStatementStatus.PARTIAL

/-- services.py `get_current_dues_for_unit` (lines 412-418): the
current/oldest unpaid dues statement for a unit. -/
def get_current_dues_for_unit (db : LedgerDB) (org_id unit_id : Nat) : Option DuesStatement :=
  firstByYearMonth <| db.statements.filter fun s =>
    s.org_id = org_id ∧ s.unit_id = unit_id ∧ isOpenStatus s.status

/-- Error string of services.py line 172 (underpayment). -/
def minPaymentError (total_due : Rat) : String :=
  "Minimum payment is ₱" ++ formatMoney total_due ++ ". Partial payments are not allowed."

/-- Error string of services.py line 179 (exact-payment mismatch). -/
def exactPaymentError (total_due amount : Rat) : String :=
  "Exact payment must be ₱" ++ formatMoney total_due ++ ". Received: ₱" ++ formatMoney amount

/-- services.py `validate_payment_amount` (lines 137-188): validates that
a payment amount matches what is due.  Pure: reads the store, returns a
DTO, performs no writes. -/
def validate_payment_amount (db : LedgerDB) (unit_id : Nat) (amount : Rat)
    (payment_type : PaymentType) (org_id : Nat) : ValidationResultDTO :=
  match get_current_dues_for_unit db org_id unit_id with
  | none =>
    -- No outstanding dues: only advance payment allowed.
    if payment_type = PaymentType.EXACT then
      ⟨false, some "No outstanding dues found. Use Advance Payment for credit deposits.", none⟩
    else
      ⟨true, none, some amount⟩
  | some current_dues =>
    let total_due := current_dues.net_amount - current_dues.amount_paid
    if amount < total_due then
      ⟨false, some (minPaymentError total_due), none⟩
    else if payment_type = PaymentType.EXACT then
      if amount ≠ total_due then
        ⟨false, some (exactPaymentError total_due amount), none⟩
      else
        ⟨true, none, none⟩
    else
      -- PaymentType.ADVANCE: excess goes to credit.
      let excess := amount - total_due
      ⟨true, none, if 0 < excess then some excess else none⟩

/-- services.py `calculate_simple_interest_penalty` (lines 195-214):
`I = P × R × T`, quantized to two decimals. -/
def calculate_simple_interest_penalty (principal monthly_rate : Rat) (months_overdue : Int) : Rat :=
  if months_overdue ≤ 0 then 0
  else quantize2 (principal * monthly_rate * (months_overdue : Rat))

/-- Embeds `PenaltyPolicy.objects.get(org_id=..., is_active=True)`:
`.get` returns the unique match, raises `DoesNotExist` when there is none
(caught by the caller, modelled as `none`) and `MultipleObjectsReturned`
(uncaught) when there are several. -/
def getActivePenaltyPolicy (db : LedgerDB) (org_id : Nat) :
    Except PyError (Option PenaltyPolicy) :=
  match db.penalty_policies.filter (fun p => p.org_id = org_id ∧ p.is_active) with
  | [] => Except.ok none
  | [p] => Except.ok (some p)
  | _ => Except.error (PyError.multipleObjectsReturned
      "get() returned more than one PenaltyPolicy")

/-- services.py `calculate_pending_penalties` (lines 217-271): all pending
penalties for a unit from its overdue statements, by simple interest. -/
def calculate_pending_penalties (db : LedgerDB) (org_id unit_id : Nat) :
    Except PyError (List PenaltyPreviewDTO) :=
  match getActivePenaltyPolicy db org_id with
  | Except.error e => Except.error e
  | Except.ok none => Except.ok []
  | Except.ok (some policy) =>
    let overdue_statements := db.statements.filter fun s =>
      s.org_id = org_id ∧ s.unit_id = unit_id ∧
        (s.status = DuesStatementStatus.UNPAID ∨ s.status = DuesStatementStatus.OVERDUE) ∧
        s.due_date < db.today
    let today := db.today
    Except.ok <| overdue_statements.filterMap fun statement =>
      let days_overdue : Int := today - statement.due_date
      let days_after_grace : Int := days_overdue - (policy.grace_period_days : Int)
      if 0 < days_after_grace then
        -- Approximate months overdue (30 days = 1 month); Python `//` is
        -- floor division, `Int.fdiv` here.
        let months_overdue : Int := max 1 (days_after_grace.fdiv 30)
        let principal := statement.net_amount - statement.amount_paid
        let penalty_amount :=
          if policy.rate_type = RateType.PERCENT then
            calculate_simple_interest_penalty principal (policy.rate_value / 100) months_overdue
          else
            -- Flat fee per month.
            policy.rate_value * (months_overdue : Rat)
        some ⟨policy.name ++ " (" ++ toString statement.statement_month ++ "/" ++
                toString statement.statement_year ++ ")",
              principal, policy.rate_value, months_overdue, penalty_amount⟩
      else
        none

/-- services.py `calculate_applicable_discounts` (lines 278-323): active
discount configs matching the month count, validity window and category. -/
def calculate_applicable_discounts (db : LedgerDB) (org_id : Nat)
    (category_id : Option Nat) (amount : Rat) (months : Nat) :
    List DiscountPreviewDTO :=
  let today := db.today
  let queryset := db.discount_configs.filter fun d =>
    d.org_id = org_id ∧ d.is_active ∧ d.min_months ≤ months ∧
      (d.valid_from = none ∨ ∃ f, d.valid_from = some f ∧ f ≤ today) ∧
      (d.valid_until = none ∨ ∃ u, d.valid_until = some u ∧ today ≤ u)
  queryset.filterMap fun discount =>
    -- `if discount.applicable_categories: if category_id and str(category_id)
    --  not in ...: continue` — skipped only when the list is non-empty, a
    -- category id was given, and it is absent from the list.
    if discount.applicable_categories ≠ [] ∧
        (∃ c, category_id = some c ∧ c ∉ discount.applicable_categories) then
      none
    else
      let calculated :=
        if discount.discount_type = DiscountType.PERCENTAGE then
          quantize2 (amount * discount.value / 100)
        else
          discount.value
      some ⟨discount.id, discount.name, discount.discount_type, discount.value, calculated⟩

/-- Sum of the amounts of the adjustments of one kind, as the two
`sum(...)` comprehensions of services.py lines 378-385. -/
def sumAdjustments (t : AdjustmentType) (l : List AdjustmentPreviewDTO) : Rat :=
  ((l.filter fun a => a.adjustment_type = t).map (·.amount)).sum

/-- services.py `preview_transaction_breakdown` (lines 330-405): the full
breakdown of a transaction before submission, without persisting. -/
def preview_transaction_breakdown (db : LedgerDB) (org_id : Nat)
    (unit_id : Option Nat) (amount : Rat) (payment_type : PaymentType)
    (category_id : Option Nat) (apply_discount_ids : Option (List Nat))
    (months : Nat) : Except PyError TransactionBreakdownDTO :=
  let gross_amount := amount
  -- Penalties (for income transactions with a unit).
  match (match unit_id with
         | some u => calculate_pending_penalties db org_id u
         | none => Except.ok []) with
  | Except.error e => Except.error e
  | Except.ok pending_penalties =>
  let penalty_adjustments : List AdjustmentPreviewDTO :=
    pending_penalties.map fun penalty =>
      ⟨AdjustmentType.PENALTY, penalty.calculated_amount, penalty.name,
        some penalty.months_overdue⟩
  let applicable_discounts : List DiscountPreviewDTO :=
    calculate_applicable_discounts db org_id category_id amount months
  let applied_discounts : List DiscountPreviewDTO :=
    match apply_discount_ids with
    | none => []
    | some ids => applicable_discounts.filter fun d => d.id ∈ ids
  let discount_adjustments : List AdjustmentPreviewDTO :=
    applied_discounts.map fun discount =>
      ⟨AdjustmentType.DISCOUNT, discount.calculated_amount, discount.name, none⟩
  let adjustments := penalty_adjustments ++ discount_adjustments
  let total_penalties := sumAdjustments AdjustmentType.PENALTY adjustments
  let total_discounts := sumAdjustments AdjustmentType.DISCOUNT adjustments
  let net_amount := gross_amount + total_penalties - total_discounts
  -- Credit to add for advance payments.
  let credit_to_add : Option Rat :=
    match payment_type, unit_id with
    | PaymentType.ADVANCE, some u =>
      match get_current_dues_for_unit db org_id u with
      | some current_dues =>
        let total_due := current_dues.net_amount - current_dues.amount_paid + total_penalties
        if total_due < net_amount then some (net_amount - total_due) else none
      | none => none
    | _, _ => none
  Except.ok ⟨gross_amount, adjustments, pending_penalties, applicable_discounts,
             net_amount, credit_to_add⟩

/-- services.py `get_or_create_unit_credit` (lines 445-451): find by
unit id, or create a zero-balance account.  Returns the possibly-extended
store and the account. -/
def get_or_create_unit_credit (db : LedgerDB) (org_id unit_id : Nat) :
    LedgerDB × UnitCredit :=
  match db.unit_credits.find? (fun c => c.unit_id = unit_id) with
  | some credit => (db, credit)
  | none =>
    let credit : UnitCredit := ⟨db.next_id, org_id, unit_id, 0⟩
    ({ db with unit_credits := db.unit_credits ++ [credit],
               next_id := db.next_id + 1 }, credit)

/-- Embeds `credit_account.save()`: replace the row with the same id. -/
def saveUnitCredit (db : LedgerDB) (credit : UnitCredit) : LedgerDB :=
  { db with unit_credits := db.unit_credits.map fun c =>
      if c.id = credit.id then credit else c }

/-- services.py `add_credit` (lines 454-483): add credit to a unit's
balance and log a DEPOSIT ledger entry. -/
def add_credit (db : LedgerDB) (org_id unit_id : Nat) (amount : Rat)
    (transaction_id : Option Nat) (description : String)
    (created_by_id : Option Nat) : LedgerDB × CreditTransaction :=
  let (db1, credit_account) := get_or_create_unit_credit db org_id unit_id
  -- Update balance.
  let credit_account' :=
    { credit_account with credit_balance := credit_account.credit_balance + amount }
  let db2 := saveUnitCredit db1 credit_account'
  -- Log transaction.
  let credit_txn : CreditTransaction :=
    ⟨db2.next_id, credit_account'.id, transaction_id, CreditTransactionType.DEPOSIT,
      amount, credit_account'.credit_balance,
      (if description = "" then "Advance payment deposit" else description),
      created_by_id⟩
  let db3 := { db2 with credit_transactions := db2.credit_transactions ++ [credit_txn],
                        next_id := db2.next_id + 1 }
  (db3, credit_txn)

/-- services.py `deduct_credit` (lines 486-520): deduct credit from a
unit's balance, logging a negative DUES_DEDUCTION ledger entry; returns
`none` (and writes nothing beyond the possible account creation) when the
balance is insufficient. -/
def deduct_credit (db : LedgerDB) (org_id unit_id : Nat) (amount : Rat)
    (transaction_id : Option Nat) (description : String)
    (created_by_id : Option Nat) : LedgerDB × Option CreditTransaction :=
  let (db1, credit_account) := get_or_create_unit_credit db org_id unit_id
  if credit_account.credit_balance < amount then
    (db1, none)
  else
    -- Update balance.
    let credit_account' :=
      { credit_account with credit_balance := credit_account.credit_balance - amount }
    let db2 := saveUnitCredit db1 credit_account'
    -- Log transaction (negative amount for deductions).
    let credit_txn : CreditTransaction :=
      ⟨db2.next_id, credit_account'.id, transaction_id,
        CreditTransactionType.DUES_DEDUCTION, -amount,
        credit_account'.credit_balance,
        (if description = "" then "Monthly dues deduction" else description),
        created_by_id⟩
    let db3 := { db2 with credit_transactions := db2.credit_transactions ++ [credit_txn],
                          next_id := db2.next_id + 1 }
    (db3, some credit_txn)

/-- services.py `get_credit_balance` (lines 523-529): current balance, or
zero when the unit has no credit account. -/
def get_credit_balance (db : LedgerDB) (unit_id : Nat) : Rat :=
  match db.unit_credits.find? (fun c => c.unit_id = unit_id) with
  | some credit => credit.credit_balance
  | none => 0

/-- services.py `record_income` (lines 623-701): validate the payment
amount when a unit is given, compute the breakdown, persist the
transaction in DRAFT status together with one adjustment row per
breakdown adjustment, and return the DTO plus the credit to deposit. -/
def record_income (db : LedgerDB) (org_id : Nat) (amount : Rat)
    (category description : String) (transaction_date : Int)
    (payment_type : PaymentType) (unit_id : Option Nat)
    (category_id : Option Nat) (payer_name reference_number : Option String)
    (apply_discount_ids : Option (List Nat)) (created_by_id : Option Nat) :
    Except PyError (LedgerDB × TransactionDTO × Option Rat) :=
  -- Validate payment amount if unit specified.
  match (match unit_id with
         | some u =>
           let validation := validate_payment_amount db u amount payment_type org_id
           if validation.valid = false then
             Except.error (PyError.valueError (validation.error.getD ""))
           else
             Except.ok ()
         | none => Except.ok ()) with
  | Except.error e => Except.error e
  | Except.ok _ =>
  -- Get breakdown for adjustments (record_income passes months by default).
  match preview_transaction_breakdown db org_id unit_id amount
      payment_type category_id apply_discount_ids 1 with
  | Except.error e => Except.error e
  | Except.ok breakdown =>
  -- Create transaction.
  let transaction : Transaction :=
    ⟨db.next_id, org_id, unit_id, category_id, TransactionType.INCOME,
      TransactionStatus.DRAFT, payment_type, breakdown.gross_amount,
      breakdown.net_amount, breakdown.net_amount, category, description,
      payer_name, reference_number, transaction_date, created_by_id⟩
  let db1 := { db with transactions := db.transactions ++ [transaction],
                       next_id := db.next_id + 1 }
  -- Create adjustment records.
  let new_adjustments : List TransactionAdjustment :=
    breakdown.adjustments.map fun adjustment =>
      ⟨transaction.id, adjustment.adjustment_type, adjustment.amount,
        adjustment.reason, adjustment.months_overdue, created_by_id⟩
  let db2 := { db1 with adjustments := db1.adjustments ++ new_adjustments }
  let dto : TransactionDTO :=
    ⟨transaction.id, transaction.org_id, transaction.transaction_type,
      transaction.status, transaction.amount, transaction.net_amount,
      transaction.category, transaction.transaction_date⟩
  Except.ok (db2, dto, breakdown.credit_to_add)

/-- Renders a transaction status as its stored string value, for the
error messages of the approval workflow. -/
def statusString : TransactionStatus → String
  | TransactionStatus.DRAFT => "DRAFT"
  | TransactionStatus.PENDING => "PENDING"
  | TransactionStatus.POSTED => "POSTED"
  | TransactionStatus.CANCELLED => "CANCELLED"

/-- Message of the `AttributeError` raised by services.py line 796
(`transaction.status = TransactionStatus.APPROVED`): the models.py
`TransactionStatus` enum has members DRAFT, PENDING, POSTED and CANCELLED
only, so the attribute access fails. -/
def approvedAttributeErrorMsg : String :=
  "type object TransactionStatus has no attribute APPROVED"

/-- services.py `approve_transaction` (lines 776-830).  The source first
checks the transaction exists and is PENDING (raising `ValueError`
otherwise), then executes `transaction.status = TransactionStatus.APPROVED`
(line 796).  `TransactionStatus` (models.py lines 11-16) has no member
`APPROVED`, so this attribute access raises `AttributeError` before any
write; the advance-payment credit deposit and statement update of lines
803-828 are unreachable. -/
def approve_transaction (db : LedgerDB) (transaction_id : Nat)
    (approved_by_id : Nat) :
    Except PyError (LedgerDB × TransactionDTO × Option Rat) :=
  match db.transactions.find? (fun t => t.id = transaction_id) with
  | none => Except.error (PyError.valueError "Transaction not found")
  | some transaction =>
    if transaction.status ≠ TransactionStatus.PENDING then
      Except.error (PyError.valueError
        ("Cannot approve transaction with status: " ++ statusString transaction.status))
    else
      Except.error (PyError.attributeError approvedAttributeErrorMsg)

/-- Message of the `AttributeError` raised when billing_service.py
evaluates `DuesStatementStatus.PENDING` (lines 35 and 170): the models.py
`DuesStatementStatus` enum has members UNPAID, PARTIAL, PAID, OVERDUE and
WAIVED only, so the attribute access fails. -/
def duesPendingAttributeErrorMsg : String :=
  "type object DuesStatementStatus has no attribute PENDING"

/-- billing_service.py `calculate_carried_penalties` (lines 27-56).  Its
first statement builds the queryset
`DuesStatement.objects.filter(..., status__in=[DuesStatementStatus.PENDING,
DuesStatementStatus.PARTIAL])` (line 35); evaluating
`DuesStatementStatus.PENDING` raises `AttributeError` (no such enum
member), so the function always fails before reading any statement. -/
def calculate_carried_penalties (db : LedgerDB) (org_id unit_id : Nat) :
    Except PyError Rat :=
  Except.error (PyError.attributeError duesPendingAttributeErrorMsg)

/-- Embeds `statement.save()`: replace the row with the same id. -/
def saveStatement (db : LedgerDB) (statement : DuesStatement) : LedgerDB :=
  { db with statements := db.statements.map fun s =>
      if s.id = statement.id then statement else s }

/-- billing_service.py `apply_credit_to_statement` (lines 59-114): apply
available unit credit to a dues statement inside a
`django.db.transaction.atomic()` block.  It deducts
`min(credit_balance, balance_due)`, updates the statement to PAID or
PARTIAL, then records the amount as an EXACT income via `record_income` —
whose payment validation can raise `ValueError`, in which case the atomic
block rolls every write back (modelled by returning the error with no
state). -/
def apply_credit_to_statement (db : LedgerDB) (org_id unit_id : Nat)
    (statement : DuesStatement) :
    Except PyError (LedgerDB × Rat × Option TransactionDTO) :=
  let credit_balance := get_credit_balance db unit_id
  if credit_balance ≤ 0 then
    Except.ok (db, 0, none)
  else
    let balance_due := statement.net_amount - statement.amount_paid
    let amount_to_pay := min credit_balance balance_due
    if amount_to_pay ≤ 0 then
      Except.ok (db, 0, none)
    else
      -- `with db_transaction.atomic():`
      let r := deduct_credit db org_id unit_id amount_to_pay
        none ("Dues payment for " ++ toString statement.statement_month ++ "/" ++
          toString statement.statement_year) none
      let db1 := r.1
      match r.2 with
      | none => Except.ok (db1, 0, none)
      | some _ =>
        -- Update statement.
        let amount_paid' := statement.amount_paid + amount_to_pay
        let statement' :=
          if statement.net_amount ≤ amount_paid' then
            { statement with amount_paid := amount_paid',
                             status := DuesStatementStatus.PAID,
                             paid_date := some db.today }
          else
            { statement with amount_paid := amount_paid',
                             status := DuesStatementStatus.PARTIAL }
        let db2 := saveStatement db1 statement'
        -- Record income transaction.
        match record_income db2 org_id amount_to_pay "Monthly Dues"
            ("Auto-deducted from credit for " ++ toString statement.statement_month ++
              "/" ++ toString statement.statement_year)
            db2.today PaymentType.EXACT (some unit_id) none none none none none with
        | Except.error e =>
          -- The exception escapes the atomic block: all writes above are
          -- rolled back, nothing of db1/db2 survives.
          Except.error e
        | Except.ok (db3, income_dto, _) =>
          Except.ok (db3, amount_to_pay, some income_dto)

/-- Calendar encoding of `datetime.date(year, month, day)`: an injective
day-number model, used only to build the `due_date` of a new statement
(whose concrete value none of the modelled claims depends on). -/
def mkDate (year month day : Nat) : Int :=
  (year : Int) * 372 + ((month : Int) - 1) * 31 + ((day : Int) - 1)

/-- billing_service.py `generate_statement_for_unit` (lines 117-177).
When a statement for (org, unit, month, year) exists the function returns
it with no writes.  Otherwise it computes discounts, then calls
`calculate_carried_penalties` (line 151), which always raises
`AttributeError` (see above); even if it did not, the subsequent
`DuesStatement.objects.create(..., status=DuesStatementStatus.PENDING, ...)`
(line 170) evaluates the same missing enum member.  So the creating branch
always fails before any write. -/
def generate_statement_for_unit (db : LedgerDB) (org_id unit_id : Nat)
    (billing_config : BillingConfig) (statement_month statement_year : Nat) :
    Except PyError (LedgerDB × DuesStatement) :=
  -- Check if statement already exists.
  match db.statements.find? (fun s =>
      s.org_id = org_id ∧ s.unit_id = unit_id ∧
      s.statement_month = statement_month ∧ s.statement_year = statement_year) with
  | some existing => Except.ok (db, existing)
  | none =>
    let base_amount := billing_config.monthly_dues_amount
    -- Calculate applicable discounts.
    let discounts := calculate_applicable_discounts db org_id none base_amount 1
    let discount_amount := (discounts.map (·.calculated_amount)).sum
    -- Calculate carried penalties from past unpaid dues.
    match calculate_carried_penalties db org_id unit_id with
    | Except.error e => Except.error e
    | Except.ok penalty_amount =>
      let net_amount := base_amount - discount_amount + penalty_amount
      let due_date := mkDate statement_year statement_month billing_config.billing_day
      -- `DuesStatement.objects.create(..., status=DuesStatementStatus.PENDING,
      -- ...)`: the argument evaluation raises before the row is created.
      let _ := net_amount
      let _ := due_date
      Except.error (PyError.attributeError duesPendingAttributeErrorMsg)

/-!  Concrete fixtures used by witnesses and counterexamples. -/

/-- Fixture statement: dues of 500 for 1/2025, unpaid, due at day 990. -/
def exSt : DuesStatement :=
  ⟨1, 1, 2, 1, 2025, 500, 0, 0, 500, 0, DuesStatementStatus.UNPAID, 990, none, none⟩

/-- Fixture store holding only `exSt`; today is day 1000. -/
def db3 : LedgerDB := ⟨[exSt], [], [], [], [], [], [], [], 1000, 100⟩

/-- Fixture store with a flat 50-peso discount config and nothing else. -/
def c1db : LedgerDB :=
  ⟨[], [], [⟨5, 1, "Promo 50", DiscountType.FLAT, 50, [], 1, none, none, true⟩],
    [], [], [], [], [], 1000, 100⟩

/-- Fixture store: one 2-percent penalty policy with 15 grace days and one
unpaid 1000-peso statement 105 days overdue (90 days past grace, hence 3
periods). -/
def c4db : LedgerDB :=
  ⟨[⟨1, 1, 2, 1, 2025, 1000, 0, 0, 1000, 0, DuesStatementStatus.UNPAID, 895, none, none⟩],
    [⟨1, "Late Fee", RateType.PERCENT, 2, 15, true⟩], [], [], [], [], [], [], 1000, 100⟩

/-- Fixture store: `exSt` (500 due) plus a credit account holding 200. -/
def c6db : LedgerDB := ⟨[exSt], [], [], [], [⟨10, 1, 2, 200⟩], [], [], [], 1000, 100⟩

/-- Fixture pending advance-payment income transaction. -/
def c7txn : Transaction :=
  ⟨7, 1, some 2, none, TransactionType.INCOME, TransactionStatus.PENDING,
    PaymentType.ADVANCE, 700, 700, 700, "Dues", "", none, none, 995, none⟩

/-- Fixture posted transaction (a terminal status). -/
def c7txnPosted : Transaction :=
  ⟨8, 1, some 2, none, TransactionType.INCOME, TransactionStatus.POSTED,
    PaymentType.EXACT, 100, 100, 100, "Dues", "", none, none, 995, none⟩

/-- Fixture store holding `c7txn` and `c7txnPosted`. -/
def c7db : LedgerDB := ⟨[], [], [], [], [], [], [c7txn, c7txnPosted], [], 1000, 100⟩

/-- Fixture billing configuration: 300 pesos monthly, billed on day 1. -/
def cfgFix : BillingConfig := ⟨1, 300, 1, 15, true⟩

/-- Fixture empty store. -/
def db0 : LedgerDB := ⟨[], [], [], [], [], [], [], [], 1000, 100⟩

/-- Fixture store: one credit account for unit 2 holding 100, no entries. -/
def c9db : LedgerDB := ⟨[], [], [], [], [⟨10, 1, 2, 100⟩], [], [], [], 1000, 100⟩

/-!  Claim theorems. -/

/-- C3: with an outstanding statement of balance due `D > 0`,
`validate_payment_amount` rejects any amount below `D` in both modes with
the underpayment error, accepts EXACT exactly when the amount equals `D`,
reports the expected value in the error on an EXACT mismatch, and accepts
ADVANCE for any amount `≥ D` with `credit_to_add = amount − D` exactly
when the amount strictly exceeds `D`.  The function is pure by
construction (it returns a DTO and no store). -/
theorem C3_validate_payment_rules (db : LedgerDB) (org_id unit_id : Nat)
    (st : DuesStatement) (amount : Rat)
    (hst : get_current_dues_for_unit db org_id unit_id = some st)
    (hD : 0 < st.balance_due) :
    (amount < st.balance_due →
      validate_payment_amount db unit_id amount PaymentType.EXACT org_id =
        ⟨false, some (minPaymentError st.balance_due), none⟩ ∧
      validate_payment_amount db unit_id amount PaymentType.ADVANCE org_id =
        ⟨false, some (minPaymentError st.balance_due), none⟩) ∧
    ((validate_payment_amount db unit_id amount PaymentType.EXACT org_id).valid = true ↔
      amount = st.balance_due) ∧
    (amount = st.balance_due →
      validate_payment_amount db unit_id amount PaymentType.EXACT org_id = ⟨true, none, none⟩) ∧
    (st.balance_due < amount →
      validate_payment_amount db unit_id amount PaymentType.EXACT org_id =
        ⟨false, some (exactPaymentError st.balance_due amount), none⟩) ∧
    (st.balance_due ≤ amount →
      validate_payment_amount db unit_id amount PaymentType.ADVANCE org_id =
        ⟨true, none, if st.balance_due < amount then some (amount - st.balance_due) else none⟩) := by
  have hbd : st.balance_due = st.net_amount - st.amount_paid := rfl
  refine ⟨fun hlt => ?_, ?_, fun heq => ?_, fun hgt => ?_, fun hge => ?_⟩
  · rw [hbd] at hlt
    constructor <;> simp [validate_payment_amount, hst, hlt, hbd]
  · constructor
    · intro hv
      by_contra hne
      rw [hbd] at hne
      rcases lt_or_gt_of_ne hne with hlt | hgt
      · simp [validate_payment_amount, hst, hlt] at hv
      · have hnlt : ¬ (amount < st.net_amount - st.amount_paid) := not_lt_of_gt hgt
        simp [validate_payment_amount, hst, hnlt, ne_of_gt hgt] at hv
    · intro heq
      rw [hbd] at heq
      have hnlt : ¬ (amount < st.net_amount - st.amount_paid) := by
        rw [heq]
        exact lt_irrefl _
      simp [validate_payment_amount, hst, hnlt, heq]
  · rw [hbd] at heq
    have hnlt : ¬ (amount < st.net_amount - st.amount_paid) := by
      rw [heq]
      exact lt_irrefl _
    simp [validate_payment_amount, hst, hnlt, heq]
  · rw [hbd] at hgt
    have hnlt : ¬ (amount < st.net_amount - st.amount_paid) := not_lt_of_gt hgt
    simp [validate_payment_amount, hst, hnlt, ne_of_gt hgt, hbd]
  · rw [hbd] at hge
    have hnlt : ¬ (amount < st.net_amount - st.amount_paid) := not_lt_of_ge hge
    simp [validate_payment_amount, hst, hnlt, hbd, sub_pos]

/-- C3 witness: on `db3` (balance due 500), an advance payment of 700 is
accepted with 200 of credit, an exact payment of 500 is accepted, and
499.99 is rejected. -/
theorem C3_validate_payment_rules_witness :
    validate_payment_amount db3 2 700 PaymentType.ADVANCE 1 = ⟨true, none, some 200⟩ ∧
    validate_payment_amount db3 2 500 PaymentType.EXACT 1 = ⟨true, none, none⟩ ∧
    validate_payment_amount db3 2 (499.99 : Rat) PaymentType.EXACT 1 =
      ⟨false, some (minPaymentError 500), none⟩ := by
  have hcur : get_current_dues_for_unit db3 1 2 = some exSt := by
    simp [get_current_dues_for_unit, db3, exSt, firstByYearMonth, isOpenStatus]
  have hpos : (0 : Rat) < exSt.balance_due := by
    norm_num [exSt, DuesStatement.balance_due]
  have h1 := (C3_validate_payment_rules db3 1 2 exSt 700 hcur hpos).2.2.2.2
    (by norm_num [exSt, DuesStatement.balance_due])
  have h2 := (C3_validate_payment_rules db3 1 2 exSt 500 hcur hpos).2.2.1
    (by norm_num [exSt, DuesStatement.balance_due])
  have h3 := ((C3_validate_payment_rules db3 1 2 exSt (499.99 : Rat) hcur hpos).1
    (by norm_num [exSt, DuesStatement.balance_due])).1
  refine ⟨?_, ?_, ?_⟩
  · rw [h1]
    norm_num [exSt, DuesStatement.balance_due]
  · rw [h2]
  · rw [h3]
    norm_num [exSt, DuesStatement.balance_due]

/-- C4: the direct-payment penalty preview computes, per overdue statement
independently, `periods = max 1 ((days_after_grace).fdiv 30)` and simple
interest (`quantize2 (principal × rate × periods)` for PERCENT,
`rate_value × periods` for FLAT), as witnessed structurally (last
conjunct) and by the spec's example (1000 at 2 percent for 3 periods gives
exactly 60, first two conjuncts); but the carried-penalty computation used
during billing statement generation always raises `AttributeError`
(billing_service.py line 35 refers to the nonexistent
`DuesStatementStatus.PENDING`), so the claimed behaviour never holds on
the billing path (third conjunct). -/
theorem C4_penalty_computation :
    calculate_pending_penalties c4db 1 2 =
      Except.ok [⟨"Late Fee (1/2025)", 1000, 2, 3, 60⟩] ∧
    calculate_simple_interest_penalty 1000 (2 / 100) 3 = 60 ∧
    (∀ db org_id unit_id, calculate_carried_penalties db org_id unit_id =
      Except.error (PyError.attributeError duesPendingAttributeErrorMsg)) ∧
    (∀ db org_id unit_id policy l,
      getActivePenaltyPolicy db org_id = Except.ok (some policy) →
      calculate_pending_penalties db org_id unit_id = Except.ok l →
      ∀ dto ∈ l, ∃ s, s ∈ db.statements ∧
        s.org_id = org_id ∧ s.unit_id = unit_id ∧
        (s.status = DuesStatementStatus.UNPAID ∨ s.status = DuesStatementStatus.OVERDUE) ∧
        s.due_date < db.today ∧
        (policy.grace_period_days : Int) < db.today - s.due_date ∧
        dto.months_overdue = max 1 ((db.today - s.due_date - (policy.grace_period_days : Int)).fdiv 30) ∧
        dto.principal = s.net_amount - s.amount_paid ∧
        dto.calculated_amount =
          (if policy.rate_type = RateType.PERCENT then
            calculate_simple_interest_penalty dto.principal (policy.rate_value / 100) dto.months_overdue
          else
            policy.rate_value * (dto.months_overdue : Rat))) := by
  refine ⟨by with_unfolding_all rfl, by with_unfolding_all rfl, fun _ _ _ => rfl, ?_⟩
  intro db org_id unit_id policy l hpol hl dto hdto
  rw [calculate_pending_penalties] at hl
  rw [hpol] at hl
  simp only [Except.ok.injEq] at hl
  subst hl
  rw [List.mem_filterMap] at hdto
  obtain ⟨s, hs, hdef⟩ := hdto
  rw [List.mem_filter] at hs
  obtain ⟨hmem, hcond⟩ := hs
  simp only [decide_eq_true_eq] at hcond
  obtain ⟨horg, hunit, hstat, hdue⟩ := hcond
  refine ⟨s, hmem, horg, hunit, hstat, hdue, ?_⟩
  by_cases hg : (0 : Int) < db.today - s.due_date - (policy.grace_period_days : Int)
  · rw [if_pos hg] at hdef
    have hdto' := hdef
    injection hdto' with h
    subst h
    refine ⟨by omega, rfl, rfl, ?_⟩
    by_cases hr : policy.rate_type = RateType.PERCENT
    · simp [hr]
    · simp [hr]
  · rw [if_neg hg] at hdef
    exact absurd hdef (by simp)

/-- C5: `generate_statement_for_unit` is a pure no-op returning the
existing statement when one exists for (org, unit, month, year) (first
conjunct, the idempotent-skip half of the claim); but in the creating
branch it always raises `AttributeError` before writing anything, because
`calculate_carried_penalties` (billing_service.py line 35) and the
`status=DuesStatementStatus.PENDING` argument of the create call (line
170) both name a nonexistent enum member — so a first call never creates
a statement, and two calls from a blank store yield zero statements, not
one. -/
theorem C5_generation_idempotency (db : LedgerDB) (org_id unit_id : Nat)
    (cfg : BillingConfig) (m y : Nat) :
    (∀ existing, db.statements.find? (fun s =>
        s.org_id = org_id ∧ s.unit_id = unit_id ∧
        s.statement_month = m ∧ s.statement_year = y) = some existing →
      generate_statement_for_unit db org_id unit_id cfg m y = Except.ok (db, existing)) ∧
    (db.statements.find? (fun s =>
        s.org_id = org_id ∧ s.unit_id = unit_id ∧
        s.statement_month = m ∧ s.statement_year = y) = none →
      generate_statement_for_unit db org_id unit_id cfg m y =
        Except.error (PyError.attributeError duesPendingAttributeErrorMsg)) := by
  constructor
  · intro existing hfind
    rw [generate_statement_for_unit, hfind]
  · intro hfind
    rw [generate_statement_for_unit, hfind]
    rfl

/-- C5 witness: on `db3` (which already holds the 1/2025 statement for
unit 2) generation returns the existing statement and writes nothing,
while on the empty store it raises instead of creating a statement. -/
theorem C5_generation_idempotency_witness :
    generate_statement_for_unit db3 1 2 cfgFix 1 2025 = Except.ok (db3, exSt) ∧
    generate_statement_for_unit db0 1 2 cfgFix 1 2025 =
      Except.error (PyError.attributeError duesPendingAttributeErrorMsg) := by
  constructor
  · exact (C5_generation_idempotency db3 1 2 cfgFix 1 2025).1 exSt (by with_unfolding_all rfl)
  · exact (C5_generation_idempotency db0 1 2 cfgFix 1 2025).2 (by with_unfolding_all rfl)

/-- C6: when the unit's credit balance is not positive the generator's
settlement step changes nothing (first conjunct, as the claim says); but
in the substantive case the claim fails: with credit 200 against a
500-peso statement, the code deducts 200 and marks the statement PARTIAL
inside the atomic block, then `record_income` re-validates 200 as an
EXACT payment against the remaining 300 and raises, rolling everything
back — the function returns the underpayment `ValueError` and no
partial settlement survives (second conjunct). -/
theorem C6_auto_settlement (db : LedgerDB) (org_id unit_id : Nat) (st : DuesStatement) :
    (get_credit_balance db unit_id ≤ 0 →
      apply_credit_to_statement db org_id unit_id st = Except.ok (db, 0, none)) ∧
    apply_credit_to_statement c6db 1 2 exSt =
      Except.error (PyError.valueError (minPaymentError 300)) := by
  constructor
  · intro hbal
    rw [apply_credit_to_statement, if_pos hbal]
  · with_unfolding_all rfl

/-- C6 witness: with no credit account at all the settlement step is a
no-op returning zero. -/
theorem C6_auto_settlement_witness :
    apply_credit_to_statement db0 1 2 exSt = Except.ok (db0, 0, none) :=
  (C6_auto_settlement db0 1 2 exSt).1 (by norm_num [get_credit_balance, db0])

/-- C7: `approve_transaction` raises a caller-visible `ValueError` naming
the status for any non-PENDING transaction (first conjunct, matching the
claim); but on a PENDING transaction it never reaches POSTED: the
assignment `transaction.status = TransactionStatus.APPROVED`
(services.py line 796) raises `AttributeError` because the models.py
enum has no `APPROVED` member, so approval always fails before any write
and the ADVANCE credit deposit of lines 803-828 is unreachable (second
conjunct). -/
theorem C7_approve_transaction (db : LedgerDB) (transaction_id approved_by : Nat)
    (txn : Transaction)
    (hfind : db.transactions.find? (fun t => t.id = transaction_id) = some txn) :
    (txn.status ≠ TransactionStatus.PENDING →
      approve_transaction db transaction_id approved_by =
        Except.error (PyError.valueError
          ("Cannot approve transaction with status: " ++ statusString txn.status))) ∧
    (txn.status = TransactionStatus.PENDING →
      approve_transaction db transaction_id approved_by =
        Except.error (PyError.attributeError approvedAttributeErrorMsg)) := by
  constructor
  · intro hne
    rw [approve_transaction, hfind]
    simp [hne]
  · intro hpend
    rw [approve_transaction, hfind]
    simp [hpend]

/-- C7 witness: approving the pending fixture transaction raises the
`APPROVED` attribute error; approving the posted one yields the
validation error naming its status. -/
theorem C7_approve_transaction_witness :
    approve_transaction c7db 7 9 =
      Except.error (PyError.attributeError approvedAttributeErrorMsg) ∧
    approve_transaction c7db 8 9 =
      Except.error (PyError.valueError
        ("Cannot approve transaction with status: " ++ statusString TransactionStatus.POSTED)) := by
  constructor
  · exact (C7_approve_transaction c7db 7 9 c7txn (by with_unfolding_all rfl)).2 rfl
  · exact (C7_approve_transaction c7db 8 9 c7txnPosted (by with_unfolding_all rfl)).1 (by simp [c7txnPosted])

/-- Sum of the amounts of the persisted adjustment rows of one kind. -/
def sumAdjustmentRows (t : AdjustmentType) (l : List TransactionAdjustment) : Rat :=
  ((l.filter fun a => a.adjustment_type = t).map (·.amount)).sum

/-- Persisting breakdown adjustments as `TransactionAdjustment` rows
preserves the per-kind amount sums. -/
theorem sumAdjustmentRows_map (t : AdjustmentType) (tid : Nat) (cb : Option Nat)
    (l : List AdjustmentPreviewDTO) :
    sumAdjustmentRows t (l.map fun a =>
      (⟨tid, a.adjustment_type, a.amount, a.reason, a.months_overdue, cb⟩ :
        TransactionAdjustment)) = sumAdjustments t l := by
  induction l with
  | nil => rfl
  | cons x xs ih =>
    simp only [List.map_cons, sumAdjustmentRows, sumAdjustments, List.filter_cons] at ih ⊢
    by_cases hx : x.adjustment_type = t
    · simp [hx, ih]
    · simp [hx, ih]

/-- Structure of a successful breakdown: the gross amount is the input
amount and the net amount is gross plus penalty adjustments minus discount
adjustments, by services.py lines 343 and 377-387. -/
theorem preview_ok_spec (db : LedgerDB) (org_id : Nat) (unit_id : Option Nat)
    (amount : Rat) (payment_type : PaymentType) (category_id : Option Nat)
    (apply_discount_ids : Option (List Nat)) (months : Nat)
    (b : TransactionBreakdownDTO)
    (h : preview_transaction_breakdown db org_id unit_id amount payment_type
      category_id apply_discount_ids months = Except.ok b) :
    b.gross_amount = amount ∧
    b.net_amount = b.gross_amount
      + sumAdjustments AdjustmentType.PENALTY b.adjustments
      - sumAdjustments AdjustmentType.DISCOUNT b.adjustments := by
  rw [preview_transaction_breakdown.eq_def] at h
  cases hm : (match unit_id with
      | some u => calculate_pending_penalties db org_id u
      | none => Except.ok []) with
  | error e =>
    rw [hm] at h
    exact Except.noConfusion h
  | ok pending =>
    rw [hm] at h
    simp only [Except.ok.injEq] at h
    subst h
    exact ⟨rfl, rfl⟩

/-- C1 (amended): for every breakdown returned by
`preview_transaction_breakdown` and every income transaction created by
`record_income`, the net amount equals the gross amount plus the sum of
penalty adjustments minus the sum of discount adjustments; the net amount
is nonnegative whenever the applied discounts total at most the gross
amount plus the penalties — but the code never enforces that bound, so the
net amount can go negative (see the counterexample). -/
theorem C1_net_amount_equation :
    (∀ db org_id unit_id amount payment_type category_id apply_discount_ids months b,
      preview_transaction_breakdown db org_id unit_id amount payment_type
        category_id apply_discount_ids months = Except.ok b →
      b.net_amount = b.gross_amount
        + sumAdjustments AdjustmentType.PENALTY b.adjustments
        - sumAdjustments AdjustmentType.DISCOUNT b.adjustments ∧
      (sumAdjustments AdjustmentType.DISCOUNT b.adjustments ≤
        b.gross_amount + sumAdjustments AdjustmentType.PENALTY b.adjustments →
        0 ≤ b.net_amount)) ∧
    (∀ db org_id amount category description transaction_date payment_type unit_id
        category_id payer_name reference_number apply_discount_ids created_by_id
        db' dto credit,
      record_income db org_id amount category description transaction_date
        payment_type unit_id category_id payer_name reference_number
        apply_discount_ids created_by_id = Except.ok (db', dto, credit) →
      ∃ t adjs,
        db'.transactions = db.transactions ++ [t] ∧
        db'.adjustments = db.adjustments ++ adjs ∧
        (∀ a ∈ adjs, a.transaction_id = t.id) ∧
        dto.net_amount = t.net_amount ∧
        t.net_amount = t.gross_amount
          + sumAdjustmentRows AdjustmentType.PENALTY adjs
          - sumAdjustmentRows AdjustmentType.DISCOUNT adjs ∧
        (sumAdjustmentRows AdjustmentType.DISCOUNT adjs ≤
          t.gross_amount + sumAdjustmentRows AdjustmentType.PENALTY adjs →
          0 ≤ t.net_amount)) := by
  constructor
  · intro db org_id unit_id amount payment_type category_id apply_discount_ids months b h
    obtain ⟨-, heq⟩ := preview_ok_spec db org_id unit_id amount payment_type
      category_id apply_discount_ids months b h
    refine ⟨heq, fun hle => ?_⟩
    rw [heq]
    linarith
  · intro db org_id amount category description transaction_date payment_type unit_id
      category_id payer_name reference_number apply_discount_ids created_by_id
      db' dto credit h
    rw [record_income.eq_def] at h
    cases hv : (match unit_id with
        | some u =>
          let validation := validate_payment_amount db u amount payment_type org_id
          if validation.valid = false then
            Except.error (PyError.valueError (validation.error.getD ""))
          else
            Except.ok ()
        | none => Except.ok ()) with
    | error e =>
      rw [hv] at h
      exact Except.noConfusion h
    | ok u =>
      rw [hv] at h
      cases hp : preview_transaction_breakdown db org_id unit_id amount
          payment_type category_id apply_discount_ids 1 with
      | error e =>
        rw [hp] at h
        exact Except.noConfusion h
      | ok breakdown =>
        rw [hp] at h
        simp only [Except.ok.injEq, Prod.mk.injEq] at h
        obtain ⟨hdb, hdto, hcred⟩ := h
        subst hdb
        subst hdto
        obtain ⟨hgross, heq⟩ := preview_ok_spec db org_id unit_id amount
          payment_type category_id apply_discount_ids 1 breakdown hp
        refine ⟨_, _, rfl, rfl, ?_, rfl, ?_, ?_⟩
        · intro a ha
          rw [List.mem_map] at ha
          obtain ⟨x, -, rfl⟩ := ha
          rfl
        · show breakdown.net_amount = breakdown.gross_amount
            + sumAdjustmentRows AdjustmentType.PENALTY _
            - sumAdjustmentRows AdjustmentType.DISCOUNT _
          rw [sumAdjustmentRows_map, sumAdjustmentRows_map]
          exact heq
        · intro hle
          rw [sumAdjustmentRows_map] at hle
          show (0 : Rat) ≤ breakdown.net_amount
          rw [heq]
          rw [sumAdjustmentRows_map] at hle
          linarith

/-- C1 counterexample: a 10-peso income with an applied flat 50-peso
discount yields `net_amount = −40` both in the preview and in the
transaction persisted by `record_income`, so "net_amount is never
negative" is false of the code. -/
theorem C1_counterexample :
    (preview_transaction_breakdown c1db 1 none 10 PaymentType.EXACT none
      (some [5]) 1).toOption.map TransactionBreakdownDTO.net_amount = some (-40) ∧
    ((record_income c1db 1 10 "Dues" "" 999 PaymentType.EXACT none none none none
      (some [5]) none).toOption.map fun r => r.2.1.net_amount) = some (-40) ∧
    (-40 : Rat) < 0 := by
  refine ⟨?_, ?_, by norm_num⟩
  · with_unfolding_all rfl
  · with_unfolding_all rfl

/-- The credit ledger entries belonging to one credit account. -/
def entriesFor (entries : List CreditTransaction) (acct_id : Nat) : List CreditTransaction :=
  entries.filter fun e => e.unit_credit_id = acct_id

/-- Sum of the signed amounts of a list of credit ledger entries. -/
def sumAmounts (l : List CreditTransaction) : Rat :=
  (l.map (fun e => e.amount)).sum

/-- The entries form a correct running ledger starting from balance `b`:
each entry's `balance_after` is the previous running balance plus the
entry's signed amount, and no entry's running balance is negative. -/
def runningFrom : Rat → List CreditTransaction → Prop
  | _, [] => True
  | b, e :: es =>
    e.balance_after = b + e.amount ∧ 0 ≤ e.balance_after ∧ runningFrom e.balance_after es

/-- C2's invariant over the store: every credit account's stored balance
equals the sum of the signed amounts of its ledger entries, each entry's
`balance_after` is the running sum up to and including it, and no entry
produces a negative running balance. -/
def CreditInvariant (db : LedgerDB) : Prop :=
  ∀ acct, acct ∈ db.unit_credits →
    acct.credit_balance = sumAmounts (entriesFor db.credit_transactions acct.id) ∧
    runningFrom 0 (entriesFor db.credit_transactions acct.id)

/-- Store well-formedness that the real database guarantees: primary keys
of credit accounts are distinct and below the id allocator, and every
ledger entry belongs to an existing account. -/
def CreditWF (db : LedgerDB) : Prop :=
  (db.unit_credits.map (fun c => c.id)).Nodup ∧
  (∀ acct, acct ∈ db.unit_credits → acct.id < db.next_id) ∧
  (∀ e, e ∈ db.credit_transactions →
    ∃ acct, acct ∈ db.unit_credits ∧ e.unit_credit_id = acct.id)

/-- Appending one entry to the store extends exactly its account's entry
list. -/
theorem entriesFor_append_one (l : List CreditTransaction) (e : CreditTransaction) (a : Nat) :
    entriesFor (l ++ [e]) a =
      entriesFor l a ++ (if e.unit_credit_id = a then [e] else []) := by
  by_cases he : e.unit_credit_id = a <;>
    simp [entriesFor, List.filter_append, List.filter_cons, he]

/-- Appending one entry adds its amount to the entry sum. -/
theorem sumAmounts_append_one (l : List CreditTransaction) (e : CreditTransaction) :
    sumAmounts (l ++ [e]) = sumAmounts l + e.amount := by
  simp [sumAmounts]

/-- Unfolding lemma for `runningFrom` over a cons cell. -/
theorem runningFrom_cons (b : Rat) (x : CreditTransaction) (xs : List CreditTransaction) :
    runningFrom b (x :: xs) ↔
      (x.balance_after = b + x.amount ∧ 0 ≤ x.balance_after ∧
        runningFrom x.balance_after xs) :=
  Iff.rfl

/-- A running ledger extended by one entry is correct exactly when the new
entry continues the running sum and stays nonnegative. -/
theorem runningFrom_append_one (l : List CreditTransaction) (b : Rat) (e : CreditTransaction) :
    runningFrom b (l ++ [e]) ↔
      (runningFrom b l ∧ e.balance_after = b + sumAmounts l + e.amount ∧
        0 ≤ e.balance_after) := by
  induction l generalizing b with
  | nil => simp [runningFrom, sumAmounts]
  | cons x xs ih =>
    simp only [List.cons_append, runningFrom_cons, ih, sumAmounts, List.map_cons, List.sum_cons]
    constructor
    · rintro ⟨h1, h2, h3, h4, h5⟩
      refine ⟨⟨h1, h2, h3⟩, ?_, h5⟩
      rw [h4, h1]
      ring
    · rintro ⟨⟨h1, h2, h3⟩, h4, h5⟩
      refine ⟨h1, h2, h3, ?_, h5⟩
      rw [h4, h1]
      ring
/-- The final balance of a nonnegative-running ledger is nonnegative. -/
theorem runningFrom_sum_nonneg (l : List CreditTransaction) (b : Rat)
    (h : runningFrom b l) (hb : 0 ≤ b) : 0 ≤ b + sumAmounts l := by
  induction l generalizing b with
  | nil =>
    simpa [sumAmounts] using hb
  | cons x xs ih =>
    obtain ⟨h1, h2, h3⟩ := h
    have h4 := ih x.balance_after h3 h2
    rw [h1] at h4
    simp only [sumAmounts, List.map_cons, List.sum_cons] at h4 ⊢
    linarith

/-- Appending a fresh zero-balance credit account (the `create` half of
`get_or_create_unit_credit`) preserves well-formedness and the credit
invariant. -/
theorem append_account_preserves (db : LedgerDB) (org_id unit_id : Nat)
    (hwf : CreditWF db) (hinv : CreditInvariant db) :
    CreditWF { db with
        unit_credits := db.unit_credits ++ [⟨db.next_id, org_id, unit_id, 0⟩],
        next_id := db.next_id + 1 } ∧
    CreditInvariant { db with
        unit_credits := db.unit_credits ++ [⟨db.next_id, org_id, unit_id, 0⟩],
        next_id := db.next_id + 1 } := by
  obtain ⟨hnd, hlt, hown⟩ := hwf
  have hfreshid : db.next_id ∉ db.unit_credits.map (fun c => c.id) := by
    intro hmem
    rw [List.mem_map] at hmem
    obtain ⟨c, hc, hcid⟩ := hmem
    exact absurd hcid (Nat.ne_of_lt (hlt c hc))
  have hnoentry : entriesFor db.credit_transactions db.next_id = [] := by
    rw [entriesFor, List.filter_eq_nil_iff]
    intro e he
    obtain ⟨acct, hacct, heid⟩ := hown e he
    simp only [decide_eq_true_eq]
    rw [heid]
    exact Nat.ne_of_lt (hlt acct hacct)
  refine ⟨⟨?_, ?_, ?_⟩, ?_⟩
  · simp only [List.map_append, List.map_cons, List.map_nil]
    rw [List.nodup_append]
    exact ⟨hnd, List.nodup_singleton _, by simpa using hfreshid⟩
  · intro acct hacct
    rw [List.mem_append] at hacct
    rcases hacct with h | h
    · exact Nat.lt_succ_of_lt (hlt acct h)
    · rw [List.mem_singleton] at h
      subst h
      exact Nat.lt_succ_self _
  · intro e he
    obtain ⟨acct, hacct, heid⟩ := hown e he
    exact ⟨acct, List.mem_append_left _ hacct, heid⟩
  · intro acct hacct
    rw [List.mem_append] at hacct
    rcases hacct with h | h
    · exact hinv acct h
    · rw [List.mem_singleton] at h
      subst h
      refine ⟨?_, ?_⟩
      · rw [hnoentry]
        rfl
      · rw [hnoentry]
        trivial

/-- Replacing one existing account by an updated copy with the same id and
appending the matching ledger entry preserves well-formedness and the
credit invariant, provided the entry continues the account ledger and the
new balance is nonnegative.  This is the shared write pattern of
`add_credit` and `deduct_credit`. -/
theorem update_and_log_preserves (db : LedgerDB) (acct acctN : UnitCredit)
    (e : CreditTransaction)
    (hwf : CreditWF db) (hinv : CreditInvariant db)
    (hmem : acct ∈ db.unit_credits)
    (hid : acctN.id = acct.id)
    (heid : e.unit_credit_id = acct.id)
    (hbal : acctN.credit_balance = acct.credit_balance + e.amount)
    (hafter : e.balance_after = acctN.credit_balance)
    (hpos : 0 ≤ acctN.credit_balance) :
    CreditWF { db with
        unit_credits := db.unit_credits.map (fun c => if c.id = acct.id then acctN else c),
        credit_transactions := db.credit_transactions ++ [e],
        next_id := db.next_id + 1 } ∧
    CreditInvariant { db with
        unit_credits := db.unit_credits.map (fun c => if c.id = acct.id then acctN else c),
        credit_transactions := db.credit_transactions ++ [e],
        next_id := db.next_id + 1 } := by
  obtain ⟨hnd, hlt, hown⟩ := hwf
  have hids : (db.unit_credits.map (fun c => if c.id = acct.id then acctN else c)).map (fun c => c.id)
      = db.unit_credits.map (fun c => c.id) := by
    rw [List.map_map]
    refine List.map_congr_left (fun c hc => ?_)
    by_cases h : c.id = acct.id
    · simp only [Function.comp_apply]
      rw [if_pos h, hid, h]
    · simp only [Function.comp_apply]
      rw [if_neg h]
  refine ⟨⟨?_, ?_, ?_⟩, ?_⟩
  · rw [hids]
    exact hnd
  · intro c hc
    rw [List.mem_map] at hc
    obtain ⟨x, hx, rfl⟩ := hc
    by_cases h : x.id = acct.id
    · rw [if_pos h, hid]
      exact Nat.lt_succ_of_lt (hlt acct hmem)
    · rw [if_neg h]
      exact Nat.lt_succ_of_lt (hlt x hx)
  · intro e2 he2
    rw [List.mem_append] at he2
    rcases he2 with h | h
    · obtain ⟨a, ha, haid⟩ := hown e2 h
      refine ⟨if a.id = acct.id then acctN else a, List.mem_map_of_mem _ ha, ?_⟩
      by_cases hh : a.id = acct.id
      · rw [if_pos hh, hid, haid, hh]
      · rw [if_neg hh, haid]
    · rw [List.mem_singleton] at h
      subst h
      refine ⟨if acct.id = acct.id then acctN else acct, List.mem_map_of_mem _ hmem, ?_⟩
      rw [if_pos rfl, heid, hid]
  · intro y hy
    rw [List.mem_map] at hy
    obtain ⟨x, hx, rfl⟩ := hy
    by_cases h : x.id = acct.id
    · have hxa : x = acct := List.inj_on_of_nodup_map hnd hx hmem h
      subst hxa
      simp only [if_pos rfl]
      obtain ⟨hsum, hrun⟩ := hinv x hx
      constructor
      · show acctN.credit_balance = sumAmounts (entriesFor (db.credit_transactions ++ [e]) acctN.id)
        rw [hid, entriesFor_append_one, if_pos heid, sumAmounts_append_one, hbal, hsum]
      · show runningFrom 0 (entriesFor (db.credit_transactions ++ [e]) acctN.id)
        rw [hid, entriesFor_append_one, if_pos heid, runningFrom_append_one]
        refine ⟨hrun, ?_, ?_⟩
        · rw [hafter, hbal, hsum]
          ring
        · rw [hafter]
          exact hpos
    · simp only [if_neg h]
      obtain ⟨hsum, hrun⟩ := hinv x hx
      have hne : e.unit_credit_id ≠ x.id := by
        rw [heid]
        intro hcontra
        exact h hcontra.symm
      constructor
      · show x.credit_balance = sumAmounts (entriesFor (db.credit_transactions ++ [e]) x.id)
        rw [entriesFor_append_one, if_neg hne, List.append_nil]
        exact hsum
      · show runningFrom 0 (entriesFor (db.credit_transactions ++ [e]) x.id)
        rw [entriesFor_append_one, if_neg hne, List.append_nil]
        exact hrun

/-- `add_credit` preserves well-formedness and the credit invariant for
nonnegative amounts (the code is only called with positive advance-payment
excesses). -/
theorem add_credit_preserves (db : LedgerDB) (org_id unit_id : Nat) (amount : Rat)
    (transaction_id : Option Nat) (description : String) (created_by_id : Option Nat)
    (hwf : CreditWF db) (hinv : CreditInvariant db) (hamt : 0 ≤ amount) :
    CreditWF (add_credit db org_id unit_id amount transaction_id description created_by_id).1 ∧
    CreditInvariant (add_credit db org_id unit_id amount transaction_id description created_by_id).1 := by
  cases hf : db.unit_credits.find? (fun c => c.unit_id = unit_id) with
  | some acct =>
    have hmem : acct ∈ db.unit_credits := List.mem_of_find?_eq_some hf
    have hbal0 : 0 ≤ acct.credit_balance := by
      obtain ⟨hsum, hrun⟩ := hinv acct hmem
      have := runningFrom_sum_nonneg _ 0 hrun le_rfl
      rw [hsum]
      simpa using this
    simp only [add_credit, get_or_create_unit_credit, hf, saveUnitCredit]
    exact update_and_log_preserves db acct _ _ hwf hinv hmem rfl rfl rfl rfl
      (by simpa using add_nonneg hbal0 hamt)
  | none =>
    have hA := append_account_preserves db org_id unit_id hwf hinv
    simp only [add_credit, get_or_create_unit_credit, hf, saveUnitCredit]
    exact update_and_log_preserves _ (⟨db.next_id, org_id, unit_id, 0⟩ : UnitCredit) _ _
      hA.1 hA.2 (List.mem_append_right _ (List.mem_singleton_self _)) rfl rfl rfl rfl
      (by simpa using hamt)

/-- `deduct_credit` preserves well-formedness and the credit invariant
unconditionally: when it proceeds, the guard guarantees the new balance is
nonnegative. -/
theorem deduct_credit_preserves (db : LedgerDB) (org_id unit_id : Nat) (amount : Rat)
    (transaction_id : Option Nat) (description : String) (created_by_id : Option Nat)
    (hwf : CreditWF db) (hinv : CreditInvariant db) :
    CreditWF (deduct_credit db org_id unit_id amount transaction_id description created_by_id).1 ∧
    CreditInvariant (deduct_credit db org_id unit_id amount transaction_id description created_by_id).1 := by
  cases hf : db.unit_credits.find? (fun c => c.unit_id = unit_id) with
  | some acct =>
    have hmem : acct ∈ db.unit_credits := List.mem_of_find?_eq_some hf
    by_cases hguard : acct.credit_balance < amount
    · simp only [deduct_credit, get_or_create_unit_credit, hf, if_pos hguard]
      exact ⟨hwf, hinv⟩
    · simp only [deduct_credit, get_or_create_unit_credit, hf, if_neg hguard, saveUnitCredit]
      exact update_and_log_preserves db acct _ _ hwf hinv hmem rfl rfl
        (by simp [sub_eq_add_neg]) rfl
        (by simpa [sub_nonneg] using not_lt.mp hguard)
  | none =>
    have hA := append_account_preserves db org_id unit_id hwf hinv
    by_cases hguard : (0 : Rat) < amount
    · simp only [deduct_credit, get_or_create_unit_credit, hf, if_pos hguard]
      exact hA
    · simp only [deduct_credit, get_or_create_unit_credit, hf, if_neg hguard, saveUnitCredit]
      exact update_and_log_preserves _ (⟨db.next_id, org_id, unit_id, 0⟩ : UnitCredit) _ _
        hA.1 hA.2 (List.mem_append_right _ (List.mem_singleton_self _)) rfl rfl
        (by simp [sub_eq_add_neg]) rfl
        (by simpa [sub_nonneg] using not_lt.mp hguard)

/-- C2: the credit-account invariant — the stored `credit_balance` equals
the sum of the signed amounts of the unit's ledger entries, each entry's
`balance_after` is the running sum up to and including it, and no entry
produces a negative running balance — is preserved by `add_credit` (for
the nonnegative amounts it is called with) and by `deduct_credit`
(unconditionally, thanks to its balance guard). -/
theorem C2_credit_ledger_invariant (db : LedgerDB) (org_id unit_id : Nat) (amount : Rat)
    (transaction_id : Option Nat) (description : String) (created_by_id : Option Nat)
    (hwf : CreditWF db) (hinv : CreditInvariant db) (hamt : 0 ≤ amount) :
    (CreditWF (add_credit db org_id unit_id amount transaction_id description created_by_id).1 ∧
     CreditInvariant (add_credit db org_id unit_id amount transaction_id description created_by_id).1) ∧
    (CreditWF (deduct_credit db org_id unit_id amount transaction_id description created_by_id).1 ∧
     CreditInvariant (deduct_credit db org_id unit_id amount transaction_id description created_by_id).1) :=
  ⟨add_credit_preserves db org_id unit_id amount transaction_id description created_by_id hwf hinv hamt,
   deduct_credit_preserves db org_id unit_id amount transaction_id description created_by_id hwf hinv⟩

/-- C2 witness: depositing 5 into the empty store preserves the invariant
(and so does a deduction attempt). -/
theorem C2_credit_ledger_invariant_witness :
    (CreditWF (add_credit db0 1 2 5 none "" none).1 ∧
     CreditInvariant (add_credit db0 1 2 5 none "" none).1) ∧
    (CreditWF (deduct_credit db0 1 2 5 none "" none).1 ∧
     CreditInvariant (deduct_credit db0 1 2 5 none "" none).1) := by
  have hwf : CreditWF db0 := by
    refine ⟨?_, ?_, ?_⟩ <;> simp [db0]
  have hinv : CreditInvariant db0 := by
    intro acct hacct
    simp [db0] at hacct
  exact C2_credit_ledger_invariant db0 1 2 5 none "" none hwf hinv (by norm_num)

/-- Lookup after replacing the found account by a copy with the same id
and unit: the lookup returns the copy. -/
theorem find?_map_replace (l : List UnitCredit) (u : Nat) (acct acctN : UnitCredit)
    (hf : l.find? (fun c => c.unit_id = u) = some acct)
    (hid : acctN.id = acct.id) (hu : acctN.unit_id = acct.unit_id) :
    (l.map fun c => if c.id = acct.id then acctN else c).find?
      (fun c => c.unit_id = u) = some acctN := by
  have hau : acct.unit_id = u := by
    have := List.find?_some hf
    simpa using this
  induction l with
  | nil => exact absurd hf (by simp)
  | cons x xs ih =>
    by_cases hx : x.unit_id = u
    · rw [List.find?_cons_of_pos _ (by simpa using hx)] at hf
      injection hf with hf
      rw [List.map_cons, if_pos (by rw [hf])]
      rw [List.find?_cons_of_pos _ (by simp [hu, hau])]
    · rw [List.find?_cons_of_neg _ (by simpa using hx)] at hf
      rw [List.map_cons]
      by_cases hxy : x.id = acct.id
      · rw [if_pos hxy]
        rw [List.find?_cons_of_pos _ (by simp [hu, hau])]
      · rw [if_neg hxy]
        rw [List.find?_cons_of_neg _ (by simpa using hx)]
        exact ih hf

/-- Lookup over an appended-then-replaced fresh account when no earlier
account matches the unit: the lookup returns the replaced copy. -/
theorem find?_map_replace_of_none (l : List UnitCredit) (u nid : Nat)
    (newAcct acctN : UnitCredit)
    (hf : l.find? (fun c => c.unit_id = u) = none)
    (hnid : newAcct.id = nid) (hu : acctN.unit_id = u) :
    ((l ++ [newAcct]).map fun c => if c.id = nid then acctN else c).find?
      (fun c => c.unit_id = u) = some acctN := by
  induction l with
  | nil =>
    simp only [List.nil_append, List.map_cons, List.map_nil]
    rw [if_pos hnid]
    rw [List.find?_cons_of_pos _ (by simpa using hu)]
  | cons x xs ih =>
    by_cases hx : x.unit_id = u
    · rw [List.find?_cons_of_pos _ (by simpa using hx)] at hf
      exact absurd hf (by simp)
    · rw [List.find?_cons_of_neg _ (by simpa using hx)] at hf
      simp only [List.cons_append, List.map_cons]
      by_cases hxy : x.id = nid
      · rw [if_pos hxy]
        rw [List.find?_cons_of_pos _ (by simpa using hu)]
      · rw [if_neg hxy]
        rw [List.find?_cons_of_neg _ (by simpa using hx)]
        exact ih hf

/-- Lookup skips a prefix with no match. -/
theorem find?_append_right_of_none {α : Type} (l1 l2 : List α) (p : α → Bool)
    (h : l1.find? p = none) : (l1 ++ l2).find? p = l2.find? p := by
  induction l1 with
  | nil => simp
  | cons x xs ih =>
    by_cases hx : p x = true
    · rw [List.find?_cons_of_pos _ hx] at h
      exact absurd h (by simp)
    · rw [List.find?_cons_of_neg _ hx] at h
      simp only [List.cons_append]
      rw [List.find?_cons_of_neg _ hx]
      exact ih h

/-- C9: `deduct_credit` succeeds exactly when the unit's current balance
covers the amount.  On insufficient balance it returns `none` without
raising, and leaves the balance and the ledger unchanged; on success it
appends one ledger entry carrying `-amount` and the new running balance,
and decreases the balance by exactly the amount. -/
theorem C9_deduct_credit_rules (db : LedgerDB) (org_id unit_id : Nat) (amount : Rat)
    (transaction_id : Option Nat) (description : String) (created_by_id : Option Nat) :
    (get_credit_balance db unit_id < amount →
      (deduct_credit db org_id unit_id amount transaction_id description created_by_id).2 = none ∧
      get_credit_balance (deduct_credit db org_id unit_id amount transaction_id description created_by_id).1 unit_id
        = get_credit_balance db unit_id ∧
      (deduct_credit db org_id unit_id amount transaction_id description created_by_id).1.credit_transactions
        = db.credit_transactions) ∧
    (amount ≤ get_credit_balance db unit_id →
      ∃ e, (deduct_credit db org_id unit_id amount transaction_id description created_by_id).2 = some e ∧
        e.amount = -amount ∧
        e.transaction_type = CreditTransactionType.DUES_DEDUCTION ∧
        e.balance_after = get_credit_balance db unit_id - amount ∧
        (deduct_credit db org_id unit_id amount transaction_id description created_by_id).1.credit_transactions
          = db.credit_transactions ++ [e] ∧
        get_credit_balance (deduct_credit db org_id unit_id amount transaction_id description created_by_id).1 unit_id
          = get_credit_balance db unit_id - amount) := by
  cases hf : db.unit_credits.find? (fun c => c.unit_id = unit_id) with
  | some acct =>
    have hbal : get_credit_balance db unit_id = acct.credit_balance := by
      simp [get_credit_balance, hf]
    constructor
    · intro hlt
      rw [hbal] at hlt
      simp only [deduct_credit, get_or_create_unit_credit, hf, if_pos hlt]
      refine ⟨?_, ?_, ?_⟩ <;> trivial
    · intro hge
      rw [hbal] at hge
      have hnlt : ¬ (acct.credit_balance < amount) := not_lt.mpr hge
      simp only [deduct_credit, get_or_create_unit_credit, hf, if_neg hnlt, saveUnitCredit]
      refine ⟨_, by trivial, by trivial, by trivial, ?_, by trivial, ?_⟩
      · rw [hbal]
      · rw [hbal]
        have := find?_map_replace db.unit_credits unit_id acct
          ⟨acct.id, acct.org_id, acct.unit_id, acct.credit_balance - amount⟩ hf rfl rfl
        simp only [get_credit_balance]
        rw [show (fun c => if c.id = acct.id
            then ({ acct with credit_balance := acct.credit_balance - amount } : UnitCredit) else c)
          = (fun c => if c.id = acct.id
            then (⟨acct.id, acct.org_id, acct.unit_id, acct.credit_balance - amount⟩ : UnitCredit) else c) from rfl]
        rw [this]
  | none =>
    have hbal : get_credit_balance db unit_id = 0 := by
      simp [get_credit_balance, hf]
    constructor
    · intro hlt
      rw [hbal] at hlt
      simp only [deduct_credit, get_or_create_unit_credit, hf, if_pos hlt]
      refine ⟨by trivial, ?_, by trivial⟩
      rw [hbal]
      simp only [get_credit_balance]
      rw [find?_append_right_of_none _ _ _ hf]
      rw [List.find?_cons_of_pos _ (by simp)]
    · intro hge
      rw [hbal] at hge
      have hnlt : ¬ ((0 : Rat) < amount) := not_lt.mpr hge
      simp only [deduct_credit, get_or_create_unit_credit, hf, if_neg hnlt, saveUnitCredit]
      refine ⟨_, by trivial, by trivial, by trivial, ?_, by trivial, ?_⟩
      · rw [hbal]
      · rw [hbal]
        have := find?_map_replace_of_none db.unit_credits unit_id db.next_id
          (⟨db.next_id, org_id, unit_id, 0⟩ : UnitCredit)
          (⟨db.next_id, org_id, unit_id, (0 : Rat) - amount⟩ : UnitCredit) hf rfl rfl
        simp only [get_credit_balance]
        rw [this]

/-- C9 witness: with a balance of 100, deducting 150 is "not applied" and
leaves the balance at 100 with no new ledger entry, while deducting 40
succeeds with a -40 entry and balance 60. -/
theorem C9_deduct_credit_rules_witness :
    ((deduct_credit c9db 1 2 150 none "" none).2 = none ∧
      get_credit_balance (deduct_credit c9db 1 2 150 none "" none).1 2 = 100 ∧
      (deduct_credit c9db 1 2 150 none "" none).1.credit_transactions = []) ∧
    (∃ e, (deduct_credit c9db 1 2 40 none "" none).2 = some e ∧
      e.amount = -40 ∧
      get_credit_balance (deduct_credit c9db 1 2 40 none "" none).1 2 = 60) := by
  have h1 := (C9_deduct_credit_rules c9db 1 2 150 none "" none).1
    (by norm_num [get_credit_balance, c9db])
  have h2 := (C9_deduct_credit_rules c9db 1 2 40 none "" none).2
    (by norm_num [get_credit_balance, c9db])
  constructor
  · refine ⟨h1.1, ?_, ?_⟩
    · rw [h1.2.1]
      norm_num [get_credit_balance, c9db]
    · rw [h1.2.2]
      rfl
  · obtain ⟨e, he1, he2, he3, he4, he5, he6⟩ := h2
    refine ⟨e, he1, he2, ?_⟩
    rw [he6]
    norm_num [get_credit_balance, c9db]

/-- The statement `first()` returns belongs to the queryset. -/
theorem firstByYearMonth_mem (l : List DuesStatement) (s : DuesStatement)
    (h : firstByYearMonth l = some s) : s ∈ l := by
  induction l with
  | nil => exact absurd h (by simp [firstByYearMonth])
  | cons x xs ih =>
    rw [firstByYearMonth] at h
    split at h
    · injection h with h
      subst h
      exact List.mem_cons_self _ _
    · split at h
      · injection h with h
        subst h
        exact List.mem_cons_self _ _
      · injection h with h
        subst h
        next heq _ =>
        exact List.mem_cons_of_mem _ (ih heq)

/-- `firstByYearMonth` returns `none` only on the empty list. -/
theorem firstByYearMonth_eq_none (l : List DuesStatement)
    (h : firstByYearMonth l = none) : l = [] := by
  cases l with
  | nil => rfl
  | cons x xs =>
    rw [firstByYearMonth] at h
    split at h
    · exact absurd h (by simp)
    · split at h
      · exact absurd h (by simp)
      · exact absurd h (by simp)

/-- The statement `first()` returns is earliest by (year, month) among the
queryset. -/
theorem firstByYearMonth_min (l : List DuesStatement) (s : DuesStatement)
    (h : firstByYearMonth l = some s) :
    ∀ t ∈ l, s.statement_year < t.statement_year ∨
      (s.statement_year = t.statement_year ∧ s.statement_month ≤ t.statement_month) := by
  induction l generalizing s with
  | nil => exact absurd h (by simp [firstByYearMonth])
  | cons x xs ih =>
    intro t ht
    rw [firstByYearMonth] at h
    split at h
    · next heq =>
      injection h with h
      subst h
      have hxs := firstByYearMonth_eq_none xs heq
      subst hxs
      rw [List.mem_singleton] at ht
      subst ht
      omega
    · next u heq =>
      split at h
      · next hc =>
        injection h with h
        subst h
        rcases List.mem_cons.mp ht with rfl | htxs
        · omega
        · have hmin := ih u heq t htxs
          omega
      · next hc =>
        injection h with h
        subst h
        rcases List.mem_cons.mp ht with rfl | htxs
        · omega
        · have hmin := ih u heq t htxs
          omega

/-- C10: the "current outstanding statement" of a unit is the single
earliest statement by (statement_year, statement_month) whose status is
UNPAID, OVERDUE or PARTIAL, with outstanding balance `net_amount -
amount_paid`; when no such statement exists the validator rejects EXACT
and accepts ADVANCE with the entire amount as credit. -/
theorem C10_current_dues_selection (db : LedgerDB) (org_id unit_id : Nat) :
    (∀ st, get_current_dues_for_unit db org_id unit_id = some st →
      st ∈ db.statements ∧ st.org_id = org_id ∧ st.unit_id = unit_id ∧
      isOpenStatus st.status = true ∧
      st.balance_due = st.net_amount - st.amount_paid ∧
      (∀ t ∈ db.statements, t.org_id = org_id → t.unit_id = unit_id →
        isOpenStatus t.status = true →
        st.statement_year < t.statement_year ∨
          (st.statement_year = t.statement_year ∧ st.statement_month ≤ t.statement_month))) ∧
    (get_current_dues_for_unit db org_id unit_id = none →
      (∀ t ∈ db.statements, t.org_id = org_id → t.unit_id = unit_id →
        isOpenStatus t.status = false) ∧
      (∀ amount : Rat,
        validate_payment_amount db unit_id amount PaymentType.EXACT org_id =
          ⟨false, some "No outstanding dues found. Use Advance Payment for credit deposits.", none⟩ ∧
        validate_payment_amount db unit_id amount PaymentType.ADVANCE org_id =
          ⟨true, none, some amount⟩)) := by
  constructor
  · intro st hst
    rw [get_current_dues_for_unit] at hst
    have hmem := firstByYearMonth_mem _ _ hst
    rw [List.mem_filter] at hmem
    obtain ⟨hmem, hcond⟩ := hmem
    simp only [decide_eq_true_eq] at hcond
    obtain ⟨horg, hunit, hopen⟩ := hcond
    refine ⟨hmem, horg, hunit, hopen, rfl, ?_⟩
    intro t ht htorg htunit htopen
    refine firstByYearMonth_min _ _ hst t ?_
    rw [List.mem_filter]
    exact ⟨ht, by simp [htorg, htunit, htopen]⟩
  · intro hnone
    constructor
    · intro t ht htorg htunit
      rw [get_current_dues_for_unit] at hnone
      have hempty := firstByYearMonth_eq_none _ hnone
      rw [List.filter_eq_nil_iff] at hempty
      have hmm := hempty t ht
      simp only [decide_eq_true_eq] at hmm
      cases hb : isOpenStatus t.status
      · rfl
      · exact absurd ⟨htorg, htunit, hb⟩ hmm
    · intro amount
      constructor
      · rw [validate_payment_amount, hnone]
        rfl
      · rw [validate_payment_amount, hnone]
        rfl

/-- Success shape of `deduct_credit`, with the frame facts the settlement
proof needs: the returned entry, the balance decrease, and that statements
and transactions are untouched. -/
theorem deduct_credit_spec_success (db : LedgerDB) (org_id unit_id : Nat) (amount : Rat)
    (transaction_id : Option Nat) (description : String) (created_by_id : Option Nat)
    (hge : amount ≤ get_credit_balance db unit_id) :
    ∃ e, (deduct_credit db org_id unit_id amount transaction_id description created_by_id).2 = some e ∧
      e.amount = -amount ∧
      e.transaction_type = CreditTransactionType.DUES_DEDUCTION ∧
      (deduct_credit db org_id unit_id amount transaction_id description created_by_id).1.credit_transactions
        = db.credit_transactions ++ [e] ∧
      get_credit_balance (deduct_credit db org_id unit_id amount transaction_id description created_by_id).1 unit_id
        = get_credit_balance db unit_id - amount ∧
      (deduct_credit db org_id unit_id amount transaction_id description created_by_id).1.statements
        = db.statements ∧
      (deduct_credit db org_id unit_id amount transaction_id description created_by_id).1.transactions
        = db.transactions := by
  cases hf : db.unit_credits.find? (fun c => c.unit_id = unit_id) with
  | some acct =>
    have hbal : get_credit_balance db unit_id = acct.credit_balance := by
      simp [get_credit_balance, hf]
    rw [hbal] at hge
    have hnlt : ¬ (acct.credit_balance < amount) := not_lt.mpr hge
    simp only [deduct_credit, get_or_create_unit_credit, hf, if_neg hnlt, saveUnitCredit]
    refine ⟨_, by trivial, by trivial, by trivial, by trivial, ?_, by trivial, by trivial⟩
    rw [hbal]
    have := find?_map_replace db.unit_credits unit_id acct
      ⟨acct.id, acct.org_id, acct.unit_id, acct.credit_balance - amount⟩ hf rfl rfl
    simp only [get_credit_balance]
    rw [this]
  | none =>
    have hbal : get_credit_balance db unit_id = 0 := by
      simp [get_credit_balance, hf]
    rw [hbal] at hge
    have hnlt : ¬ ((0 : Rat) < amount) := not_lt.mpr hge
    simp only [deduct_credit, get_or_create_unit_credit, hf, if_neg hnlt, saveUnitCredit]
    refine ⟨_, by trivial, by trivial, by trivial, by trivial, ?_, by trivial, by trivial⟩
    rw [hbal]
    have := find?_map_replace_of_none db.unit_credits unit_id db.next_id
      (⟨db.next_id, org_id, unit_id, 0⟩ : UnitCredit)
      (⟨db.next_id, org_id, unit_id, (0 : Rat) - amount⟩ : UnitCredit) hf rfl rfl
    simp only [get_credit_balance]
    rw [this]

/-- Effects of a successful `record_income`: it appends one DRAFT income
transaction whose gross amount is the input amount (plus its adjustment
rows) and touches neither statements nor the credit subsystem. -/
theorem record_income_effects {db : LedgerDB} {org_id : Nat} {amount : Rat}
    {category description : String} {transaction_date : Int}
    {payment_type : PaymentType} {unit_id : Option Nat} {category_id : Option Nat}
    {payer_name reference_number : Option String}
    {apply_discount_ids : Option (List Nat)} {created_by_id : Option Nat}
    {db2 : LedgerDB} {dto : TransactionDTO} {credit : Option Rat}
    (h : record_income db org_id amount category description transaction_date
      payment_type unit_id category_id payer_name reference_number
      apply_discount_ids created_by_id = Except.ok (db2, dto, credit)) :
    db2.statements = db.statements ∧
    db2.unit_credits = db.unit_credits ∧
    db2.credit_transactions = db.credit_transactions ∧
    ∃ t, db2.transactions = db.transactions ++ [t] ∧
      t.transaction_type = TransactionType.INCOME ∧
      t.status = TransactionStatus.DRAFT ∧
      t.gross_amount = amount := by
  rw [record_income.eq_def] at h
  cases hv : (match unit_id with
      | some u =>
        let validation := validate_payment_amount db u amount payment_type org_id
        if validation.valid = false then
          Except.error (PyError.valueError (validation.error.getD ""))
        else
          Except.ok ()
      | none => Except.ok ()) with
  | error e =>
    rw [hv] at h
    exact Except.noConfusion h
  | ok u =>
    rw [hv] at h
    cases hp : preview_transaction_breakdown db org_id unit_id amount
        payment_type category_id apply_discount_ids 1 with
    | error e =>
      rw [hp] at h
      exact Except.noConfusion h
    | ok breakdown =>
      rw [hp] at h
      simp only [Except.ok.injEq, Prod.mk.injEq] at h
      obtain ⟨hdb, -, -⟩ := h
      subst hdb
      refine ⟨rfl, rfl, rfl, _, rfl, rfl, rfl, ?_⟩
      exact (preview_ok_spec db org_id unit_id amount payment_type category_id
        apply_discount_ids 1 breakdown hp).1

/-- `get_credit_balance` depends only on the accounts table. -/
theorem get_credit_balance_congr (db dbN : LedgerDB) (unit_id : Nat)
    (h : dbN.unit_credits = db.unit_credits) :
    get_credit_balance dbN unit_id = get_credit_balance db unit_id := by
  simp [get_credit_balance, h]

/-- The complete set of effects one successful credit-settlement pass must
exhibit together: the deducted amount is `min(balance, balance_due)`, the
balance decreased by exactly that amount with one matching ledger entry,
the statement moved to PAID (with `paid_date`) or PARTIAL with its
`amount_paid` increased by the same amount, and one income transaction for
that amount was recorded. -/
def SettlementEffects (db : LedgerDB) (unit_id : Nat) (st : DuesStatement)
    (dbN : LedgerDB) (amt : Rat) : Prop :=
  amt = min (get_credit_balance db unit_id) st.balance_due ∧
  get_credit_balance dbN unit_id = get_credit_balance db unit_id - amt ∧
  (∃ e, dbN.credit_transactions = db.credit_transactions ++ [e] ∧
    e.amount = -amt ∧ e.transaction_type = CreditTransactionType.DUES_DEDUCTION) ∧
  (∃ stN, stN.id = st.id ∧
    dbN.statements = db.statements.map (fun s => if s.id = stN.id then stN else s) ∧
    stN.amount_paid = st.amount_paid + amt ∧
    (if st.net_amount ≤ st.amount_paid + amt then
      stN.status = DuesStatementStatus.PAID ∧ stN.paid_date = some db.today
    else
      stN.status = DuesStatementStatus.PARTIAL)) ∧
  (∃ t, dbN.transactions = db.transactions ++ [t] ∧
    t.transaction_type = TransactionType.INCOME ∧
    t.status = TransactionStatus.DRAFT ∧
    t.gross_amount = amt)

/-- Fixture store: `exSt` (500 due) plus a credit account holding only
100, so the settlement pass deducts 100, marks the statement PARTIAL, and
then fails inside the atomic block. -/
def c8faildb : LedgerDB := ⟨[exSt], [], [], [], [⟨10, 1, 2, 100⟩], [], [], [], 1000, 100⟩

/-- C8: settlement and approval effects are all-or-nothing.  (1) Whenever
`apply_credit_to_statement` returns normally it either changed nothing
(`amt = 0`) or produced the complete set of settlement effects — the
deduction, its ledger entry, the statement update and the income
transaction together.  (2) `approve_transaction` never returns normally
(it raises on every input before its first write), so no partial approval
state is reachable.  (3) A failure in the middle of the settlement's
atomic block — here `record_income` rejecting the partial amount after
the deduction and statement update were already made — surfaces as an
error carrying no state: the atomic block rolled those writes back. -/
theorem C8_atomic_settlement :
    (∀ db org_id unit_id st dbN amt dto,
      apply_credit_to_statement db org_id unit_id st = Except.ok (dbN, amt, dto) →
        (amt = 0 ∧ dbN = db) ∨ (0 < amt ∧ SettlementEffects db unit_id st dbN amt)) ∧
    (∀ db transaction_id approved_by,
      (approve_transaction db transaction_id approved_by).isOk = false) ∧
    (∃ e, apply_credit_to_statement c8faildb 1 2 exSt = Except.error e) := by
  refine ⟨?_, ?_, ?_⟩
  · intro db org_id unit_id st dbN amt dto h
    simp only [apply_credit_to_statement] at h
    by_cases h1 : get_credit_balance db unit_id ≤ 0
    · rw [if_pos h1] at h
      simp only [Except.ok.injEq, Prod.mk.injEq] at h
      obtain ⟨rfl, rfl, rfl⟩ := h
      left
      exact ⟨rfl, rfl⟩
    · rw [if_neg h1] at h
      by_cases h2 : min (get_credit_balance db unit_id) (st.net_amount - st.amount_paid) ≤ 0
      · rw [if_pos h2] at h
        simp only [Except.ok.injEq, Prod.mk.injEq] at h
        obtain ⟨rfl, rfl, rfl⟩ := h
        left
        exact ⟨rfl, rfl⟩
      · rw [if_neg h2] at h
        set A := min (get_credit_balance db unit_id) (st.net_amount - st.amount_paid) with hAdef
        have hA : (0 : Rat) < A := lt_of_not_le h2
        have hge : A ≤ get_credit_balance db unit_id := by
          rw [hAdef]
          exact min_le_left _ _
        obtain ⟨e, he2, heamt, hetype, hentries, hbalance, hstmts, htxns⟩ :=
          deduct_credit_spec_success db org_id unit_id A none
            ("Dues payment for " ++ toString st.statement_month ++ "/" ++
              toString st.statement_year) none hge
        simp only [he2] at h
        split at h
        · exact absurd h (by simp)
        · next db3 income_dto c2 heq =>
          simp only [Except.ok.injEq, Prod.mk.injEq] at h
          obtain ⟨rfl, rfl, rfl⟩ := h
          right
          obtain ⟨hst2, hcred2, hct2, t, ht1, ht2, ht3, ht4⟩ := record_income_effects heq
          refine ⟨hA, by rw [hAdef]; rfl, ?_, ?_, ?_, ?_⟩
          · exact (get_credit_balance_congr _ db3 unit_id (hcred2.trans rfl)).trans hbalance
          · exact ⟨e, hct2.trans hentries, heamt, hetype⟩
          · refine ⟨if st.net_amount ≤ st.amount_paid + A then
                ({ st with
                    amount_paid := st.amount_paid + A,
                    status := DuesStatementStatus.PAID,
                    paid_date := some db.today })
              else
                ({ st with
                    amount_paid := st.amount_paid + A,
                    status := DuesStatementStatus.PARTIAL }), ?_, ?_, ?_, ?_⟩
            · by_cases hc : st.net_amount ≤ st.amount_paid + A
              · rw [if_pos hc]
              · rw [if_neg hc]
            · rw [hst2]
              show (saveStatement _ _).statements = _
              simp only [saveStatement]
              rw [hstmts]
            · by_cases hc : st.net_amount ≤ st.amount_paid + A
              · rw [if_pos hc]
              · rw [if_neg hc]
            · by_cases hc : st.net_amount ≤ st.amount_paid + A
              · rw [if_pos hc, if_pos hc]
                exact ⟨rfl, rfl⟩
              · rw [if_neg hc, if_neg hc]
          · exact ⟨t, ht1.trans (congrArg (fun l => l ++ [t]) htxns), ht2, ht3, ht4⟩
  · intro db transaction_id approved_by
    cases hf : db.transactions.find? (fun t => t.id = transaction_id) with
    | none => simp [approve_transaction, hf, Except.isOk, Except.toBool]
    | some txn =>
      by_cases hs : txn.status = TransactionStatus.PENDING
      · simp [approve_transaction, hf, hs, Except.isOk, Except.toBool]
      · simp [approve_transaction, hf, hs, Except.isOk, Except.toBool]
  · exact ⟨PyError.valueError (minPaymentError 400), by with_unfolding_all rfl⟩

end AGMS
